import Mathlib

/-!
Shallow embedding of the configuration deserialization and migration pipeline
of `src/src/config/models/mod.rs` (the `Configuration` model of the trunk
build tool), together with proofs of the spec-level properties about it.

The embedding follows the source file:
* `Configuration.deserialize` mirrors the hand-written two-pass
  `impl Deserialize for Configuration` (lines 102-153): pass 1 collects the
  fixed sections and spills every other root key into an extras bag, pass 2
  decodes `Core` from that bag with unknown fields denied.
* `Configuration.migrate` mirrors `impl ConfigModel for Configuration`
  (lines 155-195): the eight per-section migration calls followed by the two
  cross-section steps (`clean.dist` to `core.dist`, and the legacy
  single-proxy fields to a new `proxies` entry).

The section submodules (`core.rs`, `build.rs`, `serve.rs`, ...) are not part
of the sources under review; where their content matters it is modelled from
the spec, as marked on each definition.  Warnings emitted through the logging
collaborator are modelled as a list of `Warning` tags in the result.
-/

namespace TrunkConfig

/-- Raw scalar payload of the generic input value tree handed to the decode
phase.  The textual parse producing the tree is an external collaborator, so
the tree is modelled by uninterpreted scalar payloads: the decode pass under
verification never inspects a section payload, it only routes it. -/
inductive Value where
  | null : Value
  | bool (b : Bool) : Value
  | num (n : Int) : Value
  | str (s : String) : Value
deriving DecidableEq, Repr

/-- Modelled from the spec: the `Build` section sub-schema (`build.rs`) is out
of scope (spec section 1, "their fields are data, not algorithm"); its decoded
content is captured as the raw tree value. -/
structure Build where
  raw : Option Value := none
deriving DecidableEq, Repr

/-- Modelled from the spec: the `Tools` section sub-schema (`tools.rs`) is out
of scope; its decoded content is captured as the raw tree value. -/
structure Tools where
  raw : Option Value := none
deriving DecidableEq, Repr

/-- Modelled from the spec: the `Hooks` section sub-schema (`hook.rs`) is out
of scope; its decoded content is captured as the raw tree value. -/
structure Hooks where
  raw : Option Value := none
deriving DecidableEq, Repr

/-- Modelled from the spec: the `Watch` section sub-schema (`watch.rs`) is out
of scope; its decoded content is captured as the raw tree value. -/
structure Watch where
  raw : Option Value := none
deriving DecidableEq, Repr

/-- Modelled from the spec: the `Serve` section (`serve.rs` is not among the
sources).  The spec (section 3) names the deprecated single-proxy carriers
`proxy_backend`, `proxy_rewrite`, `proxy_ws`, `proxy_insecure`,
`proxy_no_system_proxy`, all optional; the remaining serve fields are out of
scope and captured as the raw tree value. -/
structure Serve where
  raw : Option Value := none
  proxy_backend : Option Value := none
  proxy_rewrite : Option Value := none
  proxy_ws : Option Bool := none
  proxy_insecure : Option Bool := none
  proxy_no_system_proxy : Option Bool := none
deriving DecidableEq, Repr

/-- Modelled from the spec: the `Clean` section (`clean.rs` is not among the
sources).  The spec (section 3) names its deprecated optional `dist` path;
other clean fields are out of scope and captured as the raw tree value. -/
structure Clean where
  raw : Option Value := none
  dist : Option Value := none
deriving DecidableEq, Repr

/-- Modelled from the spec (section 3): one element of the `proxies` sequence,
with a backend address, optional path rewrite, websocket flag, insecure-TLS
flag and no-system-proxy flag (`proxy.rs` is not among the sources). -/
structure Proxy where
  backend : Value
  rewrite : Option Value := none
  ws : Bool := false
  insecure : Bool := false
  no_system_proxy : Bool := false
deriving DecidableEq, Repr

/-- The `Proxies` newtype over a vector of proxy entries.  The tuple field
`.0` of the Rust newtype is called `items` here.  Its decode sub-schema is out
of scope and modelled by capturing the raw tree value. -/
structure Proxies where
  items : List Proxy := []
  raw : Option Value := none
deriving DecidableEq, Repr

/-- Modelled from the spec: the `Core` section (`core.rs` is not among the
sources) is the open bag of top-level settings; the spec (section 3) names its
distribution-output-directory setting `dist`, the field targeted by the
`clean.dist` migration.  Field values are captured as raw tree values. -/
structure Core where
  dist : Option Value := none
deriving DecidableEq, Repr

/-- The recognized field names of `Core`, used by the deny-unknown-fields
decode of the extras bag.  Modelled from the spec together with `Core`. -/
def Core.fieldNames : List String := ["dist"]

/-- The persisted Trunk configuration model (`config_gen!` expansion at lines
86-96 of the source): the variable `core` section plus the fixed sections. -/
structure Configuration where
  core : Core := {}
  build : Build := {}
  tools : Tools := {}
  hooks : Hooks := {}
  watch : Watch := {}
  serve : Serve := {}
  clean : Clean := {}
  proxies : Proxies := {}
deriving DecidableEq, Repr

/-- Errors of the decode phase: a field present that matches no schema slot,
or a duplicate occurrence of a known field. -/
inductive DecodeError where
  | unknownField (field : String)
  | duplicateField (field : String)
deriving DecidableEq, Repr

/-- Section decoder for `Build`; total raw capture (sub-schema out of scope). -/
def Build.deserializeV (v : Value) : Build := { raw := some v }

/-- Section decoder for `Tools`; total raw capture (sub-schema out of scope). -/
def Tools.deserializeV (v : Value) : Tools := { raw := some v }

/-- Section decoder for `Hooks`; total raw capture (sub-schema out of scope). -/
def Hooks.deserializeV (v : Value) : Hooks := { raw := some v }

/-- Section decoder for `Watch`; total raw capture (sub-schema out of scope). -/
def Watch.deserializeV (v : Value) : Watch := { raw := some v }

/-- Section decoder for `Serve`; total raw capture (sub-schema out of scope). -/
def Serve.deserializeV (v : Value) : Serve := { raw := some v }

/-- Section decoder for `Clean`; total raw capture (sub-schema out of scope). -/
def Clean.deserializeV (v : Value) : Clean := { raw := some v }

/-- Section decoder for `Proxies`; total raw capture (sub-schema out of scope). -/
def Proxies.deserializeV (v : Value) : Proxies := { raw := some v }

/-- The fixed-section slots of the generated `InnerCfg` struct; the serde
derive maps each root key to one of these (or to the extras bag). -/
inductive Slot where
  | build | tools | hooks | watch | serve | clean | proxies
deriving DecidableEq, Repr

/-- Primary serialized name of a slot, as used in duplicate-field errors. -/
def Slot.name : Slot → String
  | .build => "build"
  | .tools => "tools"
  | .hooks => "hooks"
  | .watch => "watch"
  | .serve => "serve"
  | .clean => "clean"
  | .proxies => "proxies"

/-- Root-key recognition of the serde derive for `InnerCfg` (lines 54-82 of
the source): the six fixed section names, plus `proxies` with its deprecated
alias `proxy` (line 74); every other key goes to the extras bag. -/
def sectionSlot : String → Option Slot
  | "build" => some .build
  | "tools" => some .tools
  | "hooks" => some .hooks
  | "watch" => some .watch
  | "serve" => some .serve
  | "clean" => some .clean
  | "proxies" => some .proxies
  | "proxy" => some .proxies
  | _ => none

/-- The seven fixed section names as listed by the spec (not including the
deprecated alias `proxy`). -/
def fixedSectionNames : List String :=
  ["build", "tools", "hooks", "watch", "serve", "clean", "proxies"]

/-- Canonical form of a root key: the primary slot name for recognized section
keys (so the alias `proxy` canonicalizes to `proxies`), the key itself
otherwise.  Used to state the no-duplicate-keys side condition on input
documents (the parsed value trees handed to the decoder are maps, hence have
no duplicate keys). -/
def canonKey (k : String) : String :=
  match sectionSlot k with
  | some slot => slot.name
  | none => k

/-- Decode-time state of the generated `InnerCfg` struct (lines 111-116 of
the source): one optional slot per fixed section plus the flattened extras
bag of raw values. -/
structure InnerCfg where
  build : Option Build := none
  tools : Option Tools := none
  hooks : Option Hooks := none
  watch : Option Watch := none
  serve : Option Serve := none
  clean : Option Clean := none
  proxies : Option Proxies := none
  extras : List (String × Value) := []
deriving Repr

/-- Whether a slot of the decode-time state is already filled. -/
def InnerCfg.slotTaken (s : InnerCfg) : Slot → Bool
  | .build => s.build.isSome
  | .tools => s.tools.isSome
  | .hooks => s.hooks.isSome
  | .watch => s.watch.isSome
  | .serve => s.serve.isSome
  | .clean => s.clean.isSome
  | .proxies => s.proxies.isSome

/-- Fill a slot of the decode-time state with the decoded section value. -/
def InnerCfg.setSlot (s : InnerCfg) (v : Value) : Slot → InnerCfg
  | .build => { s with build := some (Build.deserializeV v) }
  | .tools => { s with tools := some (Tools.deserializeV v) }
  | .hooks => { s with hooks := some (Hooks.deserializeV v) }
  | .watch => { s with watch := some (Watch.deserializeV v) }
  | .serve => { s with serve := some (Serve.deserializeV v) }
  | .clean => { s with clean := some (Clean.deserializeV v) }
  | .proxies => { s with proxies := some (Proxies.deserializeV v) }

/-- Insert a key/value pair into the extras bag, replacing an existing entry
with the same key (the flattened extras field is a hash map; insertion order
is the determinization of its iteration order used by this model). -/
def insertReplace : List (String × Value) → String → Value → List (String × Value)
  | [], k, v => [(k, v)]
  | (k₀, v₀) :: rest, k, v =>
    if k₀ = k then (k, v) :: rest else (k₀, v₀) :: insertReplace rest k v

/-- One map entry of the serde-derived `InnerCfg` visitor: a recognized
section key decodes its section (duplicate occurrences are an error named
after the primary field name); any other key is routed raw into the extras
bag. -/
def InnerCfg.step (s : InnerCfg) (kv : String × Value) : Except DecodeError InnerCfg :=
  match sectionSlot kv.1 with
  | some slot =>
    if s.slotTaken slot then .error (.duplicateField slot.name)
    else .ok (s.setSlot kv.2 slot)
  | none => .ok { s with extras := insertReplace s.extras kv.1 kv.2 }

/-- Run the `InnerCfg` visitor over the entries of the input document. -/
def InnerCfg.run (s : InnerCfg) : List (String × Value) → Except DecodeError InnerCfg
  | [] => .ok s
  | kv :: rest =>
    match InnerCfg.step s kv with
    | .error e => .error e
    | .ok s' => InnerCfg.run s' rest

/-- Pass 1 of `Configuration::deserialize` (line 136 of the source): decode
the document against `InnerCfg`, spilling unrecognized root keys into the
extras bag. -/
def InnerCfg.deserializeDoc (doc : List (String × Value)) : Except DecodeError InnerCfg :=
  InnerCfg.run {} doc

/-- The deny-unknown-fields decode of `Core` (derived; `core.rs` is not among
the sources, the field list is modelled from the spec as `Core.fieldNames`):
walk the map entries, capture known fields (duplicates are an error), fail
with an unknown-field error on the first unrecognized key. -/
def Core.deserializeFrom : List (String × Value) → Option Value → Except DecodeError Core
  | [], dist => .ok { dist := dist }
  | (k, v) :: rest, dist =>
    if k = "dist" then
      match dist with
      | some _ => .error (.duplicateField "dist")
      | none => Core.deserializeFrom rest (some v)
    else .error (.unknownField k)

/-- Pass 2 of `Configuration::deserialize` (lines 148-149 of the source):
reinterpret the extras bag as a fresh input document and decode `Core` from
it, denying unknown fields. -/
def Core.deserializeExtras (extras : List (String × Value)) : Except DecodeError Core :=
  Core.deserializeFrom extras none

/-- The hand-written `Deserialize` impl for `Configuration` (lines 102-153 of
the source): pass 1 into `InnerCfg`, pass 2 decoding `Core` from the extras
bag, then assembly via the `From<(Core, InnerCfg)>` impl with defaulted
missing sections. -/
def Configuration.deserialize (doc : List (String × Value)) : Except DecodeError Configuration :=
  match InnerCfg.deserializeDoc doc with
  | .error e => .error e
  | .ok inner =>
    match Core.deserializeExtras inner.extras with
    | .error e => .error e
    | .ok core =>
      .ok {
        core := core
        build := inner.build.getD {}
        tools := inner.tools.getD {}
        hooks := inner.hooks.getD {}
        watch := inner.watch.getD {}
        serve := inner.serve.getD {}
        clean := inner.clean.getD {}
        proxies := inner.proxies.getD {} }

/-- Migration errors (`anyhow` errors in the source, modelled by their
message). -/
abbrev MigrationError := String

/-- Deprecation warnings emitted through the logging collaborator, one tag per
cross-section migration step of the source (lines 176 and 183). -/
inductive Warning where
  | cleanDist
  | legacyProxy
deriving DecidableEq, Repr

/-- The per-section migration functions called by `Configuration::migrate`
(lines 161-170 of the source).  Their bodies live in the section submodules,
which are not among the sources; the defaults here are the `ConfigModel`
trait default (lines 40-42 of the source): change nothing, warn nothing,
succeed.  Each migrator returns the updated section (the sections are taken
by mutable reference in the source, so the update is observable even when the
step also returns an error) together with its warnings and optional error. -/
structure SectionMigrators where
  core : Core → Core × List Warning × Option MigrationError :=
    fun s => (s, [], none)
  tools : Tools → Tools × List Warning × Option MigrationError :=
    fun s => (s, [], none)
  hooks : Hooks → Hooks × List Warning × Option MigrationError :=
    fun s => (s, [], none)
  proxies : Proxies → Proxies × List Warning × Option MigrationError :=
    fun s => (s, [], none)
  clean : Clean → Clean × List Warning × Option MigrationError :=
    fun s => (s, [], none)
  build : Build → Build × List Warning × Option MigrationError :=
    fun s => (s, [], none)
  watch : Watch → Watch × List Warning × Option MigrationError :=
    fun s => (s, [], none)
  serve : Serve → Serve × List Warning × Option MigrationError :=
    fun s => (s, [], none)

/-- The `ConfigModel` trait default migrators (`Ok(())`, lines 40-42 of the
source), used when a section submodule does not override `migrate`. -/
def defaultMigrators : SectionMigrators := {}

/-- Sequencing of one per-section migration call after the steps so far:
mirrors the `self.section.migrate()?` statements — if an earlier step already
failed, nothing more runs; otherwise the migrator updates its section in
place, its warnings are logged, and its error (if any) is propagated. -/
def bindStep {σ : Type} (st : Configuration × List Warning × Option MigrationError)
    (get : Configuration → σ) (set : Configuration → σ → Configuration)
    (f : σ → σ × List Warning × Option MigrationError) :
    Configuration × List Warning × Option MigrationError :=
  match st with
  | (c, ws, some e) => (c, ws, some e)
  | (c, ws, none) =>
    let r := f (get c)
    (set c r.1, ws ++ r.2.1, r.2.2)

/-- The per-section phase of `Configuration::migrate` (lines 161-170 of the
source), in source order: core, tools, hooks, proxies, clean, build, watch,
serve, each call short-circuiting on error. -/
def runSections (m : SectionMigrators) (c : Configuration) :
    Configuration × List Warning × Option MigrationError :=
  bindStep (bindStep (bindStep (bindStep (bindStep (bindStep (bindStep (bindStep
    (c, ([] : List Warning), (none : Option MigrationError))
    (fun c => c.core) (fun c x => { c with core := x }) m.core)
    (fun c => c.tools) (fun c x => { c with tools := x }) m.tools)
    (fun c => c.hooks) (fun c x => { c with hooks := x }) m.hooks)
    (fun c => c.proxies) (fun c x => { c with proxies := x }) m.proxies)
    (fun c => c.clean) (fun c x => { c with clean := x }) m.clean)
    (fun c => c.build) (fun c x => { c with build := x }) m.build)
    (fun c => c.watch) (fun c x => { c with watch := x }) m.watch)
    (fun c => c.serve) (fun c x => { c with serve := x }) m.serve

/-- Cross-section migration step A (lines 174-178 of the source): if the
legacy `clean.dist` is present, take it (clearing `clean.dist`), warn, and
write it into `core.dist` unconditionally. -/
def cleanDistStep (c : Configuration) : Configuration × List Warning :=
  match c.clean.dist with
  | some dist =>
    ({ c with clean := { c.clean with dist := none },
              core := { c.core with dist := some dist } },
     [Warning.cleanDist])
  | none => (c, [])

/-- Cross-section migration step B (lines 182-191 of the source): if the
legacy `serve.proxy_backend` is present, take it, warn, and append one new
`proxies` entry built from the legacy fields.  `proxy_rewrite` is also taken
(cleared); `proxy_ws`, `proxy_insecure` and `proxy_no_system_proxy` are read
with `unwrap_or_default` but not taken, so they keep their values. -/
def legacyProxyStep (c : Configuration) : Configuration × List Warning :=
  match c.serve.proxy_backend with
  | some backend =>
    ({ c with
        serve := { c.serve with proxy_backend := none, proxy_rewrite := none },
        proxies := { c.proxies with items := c.proxies.items ++
          [{ backend := backend
             rewrite := c.serve.proxy_rewrite
             ws := c.serve.proxy_ws.getD false
             insecure := c.serve.proxy_insecure.getD false
             no_system_proxy := c.serve.proxy_no_system_proxy.getD false }] } },
     [Warning.legacyProxy])
  | none => (c, [])

/-- `Configuration::migrate` (lines 160-194 of the source) with the
per-section migrators passed explicitly: the per-section phase, then (only
when it succeeded) the two cross-section steps. -/
def migrateWith (m : SectionMigrators) (c : Configuration) :
    Configuration × List Warning × Option MigrationError :=
  match runSections m c with
  | (c₁, ws, some e) => (c₁, ws, some e)
  | (c₁, ws, none) =>
    ((legacyProxyStep (cleanDistStep c₁).1).1,
     ws ++ (cleanDistStep c₁).2 ++ (legacyProxyStep (cleanDistStep c₁).1).2,
     none)

/-- `Configuration::migrate` with the sections migrated by the `ConfigModel`
trait default (the section submodules are not among the sources; the spec,
section 4.3, leaves their internal rules unspecified). -/
def Configuration.migrate (c : Configuration) :
    Configuration × List Warning × Option MigrationError :=
  migrateWith defaultMigrators c

/-! ### Helper lemmas about the decode phase -/

lemma extras_setSlot (s : InnerCfg) (v : Value) (slot : Slot) :
    (s.setSlot v slot).extras = s.extras := by
  cases slot <;> rfl

lemma slotTaken_setSlot (s : InnerCfg) (v : Value) (slot slot' : Slot) :
    (s.setSlot v slot).slotTaken slot' =
      if slot' = slot then true else s.slotTaken slot' := by
  cases slot <;> cases slot' <;>
    simp [InnerCfg.setSlot, InnerCfg.slotTaken]

lemma slotTaken_empty (slot : Slot) : InnerCfg.slotTaken {} slot = false := by
  cases slot <;> rfl

lemma sectionSlot_name (k : String) (slot : Slot) (h : sectionSlot k = some slot) :
    canonKey k = slot.name := by
  simp [canonKey, h]

lemma canonKey_of_unrecognized (k : String) (h : sectionSlot k = none) :
    canonKey k = k := by
  simp [canonKey, h]

lemma insertReplace_eq_append (l : List (String × Value)) (k : String) (v : Value)
    (h : k ∉ l.map Prod.fst) : insertReplace l k v = l ++ [(k, v)] := by
  induction l with
  | nil => rfl
  | cons hd tl ih =>
    obtain ⟨k₀, v₀⟩ := hd
    simp only [List.map_cons, List.mem_cons, not_or] at h
    have hne : ¬ (k₀ = k) := fun hk => h.1 hk.symm
    simp only [insertReplace]
    rw [if_neg hne]
    simp only [List.cons_append, List.cons.injEq, true_and]
    exact ih h.2

/-- Pass 1 characterization: on a document whose keys (taken up to the
`proxy`/`proxies` aliasing) have no duplicates and clash with nothing already
in the state, the `InnerCfg` visitor succeeds and its extras bag is the
in-order list of the unrecognized root entries. -/
lemma run_ok (doc : List (String × Value)) :
    ∀ s : InnerCfg,
    ((doc.map Prod.fst).map canonKey).Nodup →
    (∀ kv ∈ doc, ∀ slot, sectionSlot kv.1 = some slot → s.slotTaken slot = false) →
    (∀ kv ∈ doc, kv.1 ∉ s.extras.map Prod.fst) →
    ∃ st : InnerCfg, InnerCfg.run s doc = .ok st ∧
      st.extras = s.extras ++ doc.filter (fun kv => (sectionSlot kv.1).isNone) := by
  induction doc with
  | nil =>
    intro s _ _ _
    exact ⟨s, rfl, by simp⟩
  | cons kv rest ih =>
    intro s hnd hslot hextra
    obtain ⟨k, v⟩ := kv
    simp only [List.map_cons, List.nodup_cons, List.mem_map] at hnd
    obtain ⟨hnotin, hndtail⟩ := hnd
    cases hsec : sectionSlot k with
    | some slot =>
      have htk : s.slotTaken slot = false :=
        hslot (k, v) (List.mem_cons_self _ _) slot hsec
      have hstep : InnerCfg.step s (k, v) = .ok (s.setSlot v slot) := by
        simp [InnerCfg.step, hsec, htk]
      obtain ⟨st, hrun, hex⟩ := ih (s.setSlot v slot) hndtail
        (by
          intro kv' hkv' slot' hsec'
          rw [slotTaken_setSlot]
          by_cases hEq : slot' = slot
          · exfalso
            apply hnotin
            refine ⟨kv'.1, ⟨kv', hkv', rfl⟩, ?_⟩
            rw [sectionSlot_name kv'.1 slot' hsec', sectionSlot_name k slot hsec, hEq]
          · rw [if_neg hEq]
            exact hslot kv' (List.mem_cons_of_mem _ hkv') slot' hsec')
        (by
          intro kv' hkv'
          rw [extras_setSlot]
          exact hextra kv' (List.mem_cons_of_mem _ hkv'))
      refine ⟨st, ?_, ?_⟩
      · simp [InnerCfg.run, hstep, hrun]
      · rw [hex, extras_setSlot]
        simp [List.filter_cons, hsec]
    | none =>
      have hkextra : k ∉ s.extras.map Prod.fst := hextra (k, v) (List.mem_cons_self _ _)
      have hstep : InnerCfg.step s (k, v) =
          .ok { s with extras := s.extras ++ [(k, v)] } := by
        simp [InnerCfg.step, hsec, insertReplace_eq_append s.extras k v hkextra]
      obtain ⟨st, hrun, hex⟩ := ih { s with extras := s.extras ++ [(k, v)] } hndtail
        (by
          intro kv' hkv' slot' hsec'
          have : InnerCfg.slotTaken { s with extras := s.extras ++ [(k, v)] } slot' =
              s.slotTaken slot' := by cases slot' <;> rfl
          rw [this]
          exact hslot kv' (List.mem_cons_of_mem _ hkv') slot' hsec')
        (by
          intro kv' hkv'
          simp only [List.map_append, List.map_cons, List.map_nil, List.mem_append,
            List.mem_singleton, not_or]
          refine ⟨hextra kv' (List.mem_cons_of_mem _ hkv'), ?_⟩
          intro hEq
          apply hnotin
          exact ⟨kv'.1, ⟨kv', hkv', rfl⟩, by rw [hEq]⟩)
      refine ⟨st, ?_, ?_⟩
      · simp [InnerCfg.run, hstep, hrun]
      · rw [hex]
        simp [List.filter_cons, hsec]

/-- Pass 1 on a well-formed document: succeeds, extras bag is exactly the
unrecognized root entries in document order. -/
lemma deserializeDoc_ok (doc : List (String × Value))
    (hnd : ((doc.map Prod.fst).map canonKey).Nodup) :
    ∃ st : InnerCfg, InnerCfg.deserializeDoc doc = .ok st ∧
      st.extras = doc.filter (fun kv => (sectionSlot kv.1).isNone) := by
  obtain ⟨st, h1, h2⟩ := run_ok doc {} hnd
    (fun kv _ slot _ => slotTaken_empty slot) (by simp [InnerCfg.extras])
  exact ⟨st, h1, by simpa using h2⟩

lemma deserializeFrom_cons_dist (tl : List (String × Value)) (w : Value) :
    Core.deserializeFrom (("dist", w) :: tl) none = Core.deserializeFrom tl (some w) := by
  simp [Core.deserializeFrom]

lemma deserializeFrom_cons_dup (tl : List (String × Value)) (w w' : Value) :
    Core.deserializeFrom (("dist", w) :: tl) (some w') =
      .error (.duplicateField "dist") := by
  simp [Core.deserializeFrom]

lemma deserializeFrom_cons_other (k : String) (hk : ¬ k = "dist") (w : Value)
    (tl : List (String × Value)) (acc : Option Value) :
    Core.deserializeFrom ((k, w) :: tl) acc = .error (.unknownField k) := by
  simp [Core.deserializeFrom, hk]

lemma deserializeFrom_ok_acc (l : List (String × Value)) (w : Value) (c : Core)
    (h : Core.deserializeFrom l (some w) = .ok c) :
    l = [] ∧ c.dist = some w := by
  cases l with
  | nil =>
    refine ⟨rfl, ?_⟩
    simp only [Core.deserializeFrom, Except.ok.injEq] at h
    rw [← h]
  | cons hd tl =>
    obtain ⟨k, v⟩ := hd
    by_cases hk : k = "dist"
    · subst hk
      rw [deserializeFrom_cons_dup] at h
      simp at h
    · rw [deserializeFrom_cons_other k hk] at h
      simp at h

lemma deserializeFrom_ok_dist (l : List (String × Value)) (v : Value) (c : Core)
    (h : Core.deserializeFrom l none = .ok c) (hmem : ("dist", v) ∈ l) :
    c.dist = some v := by
  cases l with
  | nil => cases hmem
  | cons hd tl =>
    obtain ⟨k, w⟩ := hd
    by_cases hk : k = "dist"
    · subst hk
      rw [deserializeFrom_cons_dist] at h
      obtain ⟨htl, hdist⟩ := deserializeFrom_ok_acc tl w c h
      subst htl
      simp only [List.mem_singleton, Prod.mk.injEq, true_and] at hmem
      rw [hdist, hmem]
    · rw [deserializeFrom_cons_other k hk] at h
      simp at h

/-- Pass 2 failure: if the extras bag holds a key that `Core` does not
recognize (and no duplicate keys), the `Core` decode fails with an
unknown-field error naming the first such key; when the given key is the only
unrecognized one, the error names it. -/
lemma deserializeFrom_err (l : List (String × Value)) :
    ∀ acc : Option Value,
    (acc.isSome = true → "dist" ∉ l.map Prod.fst) →
    (l.map Prod.fst).Nodup →
    ∀ k₀, k₀ ∈ l.map Prod.fst → k₀ ∉ Core.fieldNames →
    ∃ k', Core.deserializeFrom l acc = .error (.unknownField k') ∧
      k' ∈ l.map Prod.fst ∧ k' ∉ Core.fieldNames ∧
      ((∀ k₂ ∈ l.map Prod.fst, k₂ ∉ Core.fieldNames → k₂ = k₀) → k' = k₀) := by
  induction l with
  | nil =>
    intro acc _ _ k₀ hk₀ _
    cases hk₀
  | cons hd tl ih =>
    intro acc hacc hnd k₀ hk₀ hk₀core
    obtain ⟨k, v⟩ := hd
    simp only [List.map_cons, List.nodup_cons] at hnd
    by_cases hk : k = "dist"
    · subst hk
      have hk₀ne : k₀ ≠ "dist" := by
        intro hEq
        apply hk₀core
        rw [hEq]
        simp [Core.fieldNames]
      have hk₀tl : k₀ ∈ tl.map Prod.fst := by
        rcases List.mem_cons.mp hk₀ with hk₀ | hk₀
        · exact absurd hk₀ hk₀ne
        · exact hk₀
      cases acc with
      | some w =>
        exact absurd (List.mem_cons_self _ _) (hacc rfl)
      | none =>
        obtain ⟨k', herr, hmem', hcore', huniq'⟩ := ih (some v)
          (fun _ => hnd.1) hnd.2 k₀ hk₀tl hk₀core
        refine ⟨k', ?_, List.mem_cons_of_mem _ hmem', hcore', ?_⟩
        · rw [deserializeFrom_cons_dist, herr]
        · intro huniq
          refine huniq' ?_
          intro k₂ hk₂ hk₂core
          exact huniq k₂ (List.mem_cons_of_mem _ hk₂) hk₂core
    · refine ⟨k, ?_, List.mem_cons_self _ _, ?_, ?_⟩
      · exact deserializeFrom_cons_other k hk v tl acc
      · simp [Core.fieldNames, hk]
      · intro huniq
        exact huniq k (List.mem_cons_self _ _) (by simp [Core.fieldNames, hk])

/-! ### Helper lemmas about the migration phase -/

lemma runSections_default (c : Configuration) :
    runSections defaultMigrators c = (c, [], none) := rfl

lemma migrate_eq (c : Configuration) :
    Configuration.migrate c =
      ((legacyProxyStep (cleanDistStep c).1).1,
       (cleanDistStep c).2 ++ (legacyProxyStep (cleanDistStep c).1).2,
       none) := rfl

lemma cleanDistStep_of_none (c : Configuration) (h : c.clean.dist = none) :
    cleanDistStep c = (c, []) := by
  simp [cleanDistStep, h]

lemma legacyProxyStep_of_none (c : Configuration) (h : c.serve.proxy_backend = none) :
    legacyProxyStep c = (c, []) := by
  simp [legacyProxyStep, h]

lemma migrate_clean_dist (c : Configuration) :
    (Configuration.migrate c).1.clean.dist = none := by
  cases hd : c.clean.dist <;> cases hb : c.serve.proxy_backend <;>
    simp [migrate_eq, cleanDistStep, legacyProxyStep, hd, hb]

lemma migrate_proxy_backend (c : Configuration) :
    (Configuration.migrate c).1.serve.proxy_backend = none := by
  cases hd : c.clean.dist <;> cases hb : c.serve.proxy_backend <;>
    simp [migrate_eq, cleanDistStep, legacyProxyStep, hd, hb]

/-! ### Claim C1 -/

/-- Claim C1, counterexample: the claim lists the recognized root keys as the
seven fixed section names and the core fields, but the source (line 74) also
accepts the deprecated singular alias `proxy` for `proxies`.  The document
with the single root key `proxy` matches none of the names the claim allows,
yet it deserializes successfully instead of failing with an unknown-field
error. -/
theorem c1_counterexample :
    ("proxy" ∉ fixedSectionNames) ∧ ("proxy" ∉ Core.fieldNames) ∧
    Configuration.deserialize [("proxy", Value.null)] =
      .ok { proxies := { raw := some Value.null } } :=
  ⟨by decide, by decide, rfl⟩

/-- Claim C1, amended: for every input document (with no duplicate root keys
up to the `proxy`/`proxies` aliasing) containing a root-level key that is
neither a recognized section key — a fixed section name or the deprecated
alias `proxy` — nor a recognized field of core, deserialization never
succeeds; and when that key is the only such unrecognized key, it fails with
an unknown-field error naming that key. -/
theorem c1_amended_closed_schema (doc : List (String × Value)) (k : String) (v : Value)
    (hnd : ((doc.map Prod.fst).map canonKey).Nodup)
    (hmem : (k, v) ∈ doc)
    (hsec : sectionSlot k = none)
    (hcore : k ∉ Core.fieldNames) :
    (Configuration.deserialize doc).toOption = none ∧
    ((∀ k₂ v₂, (k₂, v₂) ∈ doc → sectionSlot k₂ = none → k₂ ∉ Core.fieldNames → k₂ = k) →
      Configuration.deserialize doc = .error (.unknownField k)) := by
  obtain ⟨st, hrun, hex⟩ := deserializeDoc_ok doc hnd
  have hkmem : k ∈ st.extras.map Prod.fst := by
    rw [hex]
    exact List.mem_map.mpr ⟨(k, v), List.mem_filter.mpr ⟨hmem, by rw [hsec]; rfl⟩, rfl⟩
  have hndex : (st.extras.map Prod.fst).Nodup := by
    rw [hex]
    exact (List.Nodup.of_map canonKey hnd).sublist
      ((List.filter_sublist doc).map Prod.fst)
  obtain ⟨k', herr, hk'mem, hk'core, huniq⟩ :=
    deserializeFrom_err st.extras none (by simp) hndex k hkmem hcore
  have hres : Configuration.deserialize doc = .error (.unknownField k') := by
    simp [Configuration.deserialize, hrun, Core.deserializeExtras, herr]
  refine ⟨by rw [hres]; rfl, ?_⟩
  intro hdoc
  rw [hres]
  have : k' = k := by
    apply huniq
    intro k₂ hk₂ hk₂core
    obtain ⟨⟨k₃, v₃⟩, hk₃, hk₃eq⟩ := List.mem_map.mp (hex ▸ hk₂)
    obtain ⟨hk₃doc, hk₃none⟩ := List.mem_filter.mp hk₃
    subst hk₃eq
    exact hdoc k₃ v₃ hk₃doc (Option.isNone_iff_eq_none.mp hk₃none) hk₂core
  rw [this]

/-- Claim C1, witness for the amended theorem at the concrete document
holding the single unrecognized key `zzz`. -/
theorem c1_amended_witness :
    ((([("zzz", Value.null)].map Prod.fst).map canonKey).Nodup) ∧
    (("zzz", Value.null) ∈ [("zzz", Value.null)]) ∧
    (sectionSlot "zzz" = none) ∧ ("zzz" ∉ Core.fieldNames) ∧
    ((Configuration.deserialize [("zzz", Value.null)]).toOption = none ∧
     ((∀ k₂ v₂, (k₂, v₂) ∈ [("zzz", Value.null)] → sectionSlot k₂ = none →
        k₂ ∉ Core.fieldNames → k₂ = "zzz") →
       Configuration.deserialize [("zzz", Value.null)] = .error (.unknownField "zzz"))) :=
  ⟨by decide, by decide, rfl, by decide,
   c1_amended_closed_schema [("zzz", Value.null)] "zzz" Value.null
     (by decide) (by decide) rfl (by decide)⟩

/-! ### Claim C2 -/

/-- Claim C2: for every valid input document (no duplicate root keys up to
aliasing) in which the core field `dist` appears at the document root, the
core section of the deserialized configuration contains the value of that
field unchanged. -/
theorem c2_flatten_fidelity (doc : List (String × Value)) (v : Value) (cfg : Configuration)
    (hnd : ((doc.map Prod.fst).map canonKey).Nodup)
    (hmem : ("dist", v) ∈ doc)
    (hok : Configuration.deserialize doc = .ok cfg) :
    cfg.core.dist = some v := by
  obtain ⟨st, hrun, hex⟩ := deserializeDoc_ok doc hnd
  have hmemex : ("dist", v) ∈ st.extras := by
    rw [hex]
    exact List.mem_filter.mpr ⟨hmem, rfl⟩
  cases hcore : Core.deserializeExtras st.extras with
  | error e =>
    rw [Configuration.deserialize] at hok
    simp [hrun, hcore] at hok
  | ok core =>
    have hdist : core.dist = some v :=
      deserializeFrom_ok_dist st.extras v core hcore hmemex
    rw [Configuration.deserialize] at hok
    simp only [hrun, hcore, Except.ok.injEq] at hok
    rw [← hok]
    exact hdist

/-- Claim C2, witness at a concrete document with `dist` at the root next to
a fixed section. -/
theorem c2_witness :
    ((([("dist", Value.str "www"), ("build", Value.bool true)].map Prod.fst).map canonKey).Nodup) ∧
    (("dist", Value.str "www") ∈ [("dist", Value.str "www"), ("build", Value.bool true)]) ∧
    (Configuration.deserialize [("dist", Value.str "www"), ("build", Value.bool true)] =
      .ok { core := { dist := some (Value.str "www") },
            build := { raw := some (Value.bool true) } }) ∧
    ({ core := { dist := some (Value.str "www") },
       build := { raw := some (Value.bool true) } : Configuration }).core.dist
      = some (Value.str "www") :=
  ⟨by decide, by decide, rfl,
   c2_flatten_fidelity [("dist", Value.str "www"), ("build", Value.bool true)]
     (Value.str "www") _ (by decide) (by decide) rfl⟩

/-! ### Claim C3 -/

/-- Claim C3: for every decoded configuration value, applying
`Configuration::migrate` twice yields the same resulting value as applying it
once — the second invocation on an already-migrated value performs no change
and produces no warning. -/
theorem c3_migrate_idempotent (c : Configuration) :
    (Configuration.migrate (Configuration.migrate c).1).1 = (Configuration.migrate c).1 ∧
    (Configuration.migrate (Configuration.migrate c).1).2.1 = [] := by
  have h1 : cleanDistStep (Configuration.migrate c).1 = ((Configuration.migrate c).1, []) :=
    cleanDistStep_of_none _ (migrate_clean_dist c)
  have h2 : legacyProxyStep (Configuration.migrate c).1 = ((Configuration.migrate c).1, []) :=
    legacyProxyStep_of_none _ (migrate_proxy_backend c)
  rw [migrate_eq ((Configuration.migrate c).1), h1]
  simp [h2]

/-! ### Claim C4 -/

/-- Per-section migrators exhibiting a failure after a successful rewriting
step, both within what the spec allows of the (unavailable) section
submodules: the core migrator rewrites a core field and succeeds, then the
tools migrator fails. -/
def failingMigrators : SectionMigrators :=
  { core := fun s => ({ s with dist := some (Value.str "x") }, [], none)
    tools := fun s => (s, [], some "tools migration failed") }

/-- Claim C4, counterexample: when the tools migration step fails after the
core step already rewrote `core.dist`, `Configuration::migrate` surfaces the
error, but the configuration value is NOT left unchanged from its
pre-migration state — `core.dist` went from `none` to a value, because the
source migrates `&mut self` in place and an early return does not roll back
earlier steps. -/
theorem c4_counterexample :
    (migrateWith failingMigrators {}).2.2 = some "tools migration failed" ∧
    (migrateWith failingMigrators {}).1.core.dist = some (Value.str "x") ∧
    ({} : Configuration).core.dist = none :=
  ⟨rfl, rfl, rfl⟩

/-- Claim C4, amended: when some migration step fails,
`Configuration::migrate` returns the error to the caller and the result is
exactly the output of the per-section phase — neither cross-section rewrite
is applied and no cross-section warning is emitted — but rewrites already
performed by earlier successful per-section steps remain in the value. -/
theorem c4_amended_abort (m : SectionMigrators) (c : Configuration) (e : MigrationError)
    (h : (migrateWith m c).2.2 = some e) :
    migrateWith m c = runSections m c ∧ (runSections m c).2.2 = some e := by
  rcases hrs : runSections m c with ⟨c₁, ws, e₁⟩
  cases e₁ with
  | none =>
    rw [migrateWith, hrs] at h
    simp at h
  | some e' =>
    rw [migrateWith, hrs] at h
    simp only at h
    constructor
    · rw [migrateWith, hrs]
    · exact h

/-- Claim C4, witness for the amended theorem at the failing migrators. -/
theorem c4_amended_witness :
    ((migrateWith failingMigrators {}).2.2 = some "tools migration failed") ∧
    (migrateWith failingMigrators {} = runSections failingMigrators {} ∧
     (runSections failingMigrators {}).2.2 = some "tools migration failed") :=
  ⟨rfl, c4_amended_abort failingMigrators {} "tools migration failed" rfl⟩

/-! ### Claim C5 -/

/-- Claim C5: for every configuration with `clean.dist` set and `core.dist`
absent, migration succeeds, afterwards `core.dist` holds the value,
`clean.dist` is absent, and exactly one deprecation warning was emitted for
this step. -/
theorem c5_clean_dist_migration (c : Configuration) (d : Value)
    (h1 : c.clean.dist = some d) (h2 : c.core.dist = none) :
    (Configuration.migrate c).2.2 = none ∧
    (Configuration.migrate c).1.core.dist = some d ∧
    (Configuration.migrate c).1.clean.dist = none ∧
    (Configuration.migrate c).2.1.count Warning.cleanDist = 1 := by
  cases hb : c.serve.proxy_backend <;>
    simp [migrate_eq, cleanDistStep, legacyProxyStep, h1, hb, List.count_cons]

/-- Claim C5, witness at a configuration with `clean.dist = "out"`. -/
theorem c5_witness :
    (({ clean := { dist := some (Value.str "out") } } : Configuration).clean.dist
      = some (Value.str "out")) ∧
    (({ clean := { dist := some (Value.str "out") } } : Configuration).core.dist = none) ∧
    ((Configuration.migrate { clean := { dist := some (Value.str "out") } }).2.2 = none ∧
     (Configuration.migrate { clean := { dist := some (Value.str "out") } }).1.core.dist
       = some (Value.str "out") ∧
     (Configuration.migrate { clean := { dist := some (Value.str "out") } }).1.clean.dist
       = none ∧
     (Configuration.migrate
        { clean := { dist := some (Value.str "out") } }).2.1.count Warning.cleanDist = 1) :=
  ⟨rfl, rfl,
   c5_clean_dist_migration { clean := { dist := some (Value.str "out") } }
     (Value.str "out") rfl rfl⟩

/-! ### Claim C6 -/

/-- Configuration with the legacy single-proxy fields set and no proxies. -/
def cfgLegacyProxy : Configuration :=
  { serve := { proxy_backend := some (.str "http://x"), proxy_ws := some true } }

/-- Claim C6, counterexample: with `serve.proxy_backend = "http://x"`,
`serve.proxy_ws = true` and an empty proxies list, migration succeeds, but
NOT all `serve.proxy_*` legacy fields are absent afterwards: the source takes
only `proxy_backend` and `proxy_rewrite`; `proxy_ws` (like `proxy_insecure`
and `proxy_no_system_proxy`) is read with `unwrap_or_default` and keeps its
value. -/
theorem c6_counterexample :
    cfgLegacyProxy.serve.proxy_backend = some (Value.str "http://x") ∧
    cfgLegacyProxy.serve.proxy_ws = some true ∧
    cfgLegacyProxy.proxies.items = [] ∧
    (Configuration.migrate cfgLegacyProxy).2.2 = none ∧
    (Configuration.migrate cfgLegacyProxy).1.serve.proxy_ws = some true ∧
    (Configuration.migrate cfgLegacyProxy).1.serve.proxy_ws ≠ none :=
  ⟨rfl, rfl, rfl, rfl, rfl, by decide⟩

/-- Claim C6, amended: for every configuration with `serve.proxy_backend`
set and an empty proxies list, migration succeeds and the proxies list
contains exactly one entry built from the legacy fields (backend as given,
`ws` true exactly when `proxy_ws` was set true, missing companions defaulting
to their natural empty/false value); `serve.proxy_backend` and
`serve.proxy_rewrite` are absent afterwards, while `serve.proxy_ws`,
`serve.proxy_insecure` and `serve.proxy_no_system_proxy` retain their
pre-migration values; exactly one deprecation warning is emitted for this
step. -/
theorem c6_amended_legacy_proxy (c : Configuration) (b : Value)
    (hb : c.serve.proxy_backend = some b) (hp : c.proxies.items = []) :
    (Configuration.migrate c).2.2 = none ∧
    (Configuration.migrate c).1.proxies.items =
      [{ backend := b
         rewrite := c.serve.proxy_rewrite
         ws := c.serve.proxy_ws.getD false
         insecure := c.serve.proxy_insecure.getD false
         no_system_proxy := c.serve.proxy_no_system_proxy.getD false }] ∧
    (Configuration.migrate c).1.serve.proxy_backend = none ∧
    (Configuration.migrate c).1.serve.proxy_rewrite = none ∧
    (Configuration.migrate c).1.serve.proxy_ws = c.serve.proxy_ws ∧
    (Configuration.migrate c).1.serve.proxy_insecure = c.serve.proxy_insecure ∧
    (Configuration.migrate c).1.serve.proxy_no_system_proxy
      = c.serve.proxy_no_system_proxy ∧
    (Configuration.migrate c).2.1.count Warning.legacyProxy = 1 := by
  cases hd : c.clean.dist <;>
    simp [migrate_eq, cleanDistStep, legacyProxyStep, hd, hb, hp, List.count_cons]

/-- Claim C6, witness for the amended theorem at the legacy-proxy
configuration. -/
theorem c6_amended_witness :
    (cfgLegacyProxy.serve.proxy_backend = some (Value.str "http://x")) ∧
    (cfgLegacyProxy.proxies.items = []) ∧
    ((Configuration.migrate cfgLegacyProxy).2.2 = none ∧
     (Configuration.migrate cfgLegacyProxy).1.proxies.items =
       [{ backend := Value.str "http://x"
          rewrite := cfgLegacyProxy.serve.proxy_rewrite
          ws := cfgLegacyProxy.serve.proxy_ws.getD false
          insecure := cfgLegacyProxy.serve.proxy_insecure.getD false
          no_system_proxy := cfgLegacyProxy.serve.proxy_no_system_proxy.getD false }] ∧
     (Configuration.migrate cfgLegacyProxy).1.serve.proxy_backend = none ∧
     (Configuration.migrate cfgLegacyProxy).1.serve.proxy_rewrite = none ∧
     (Configuration.migrate cfgLegacyProxy).1.serve.proxy_ws
       = cfgLegacyProxy.serve.proxy_ws ∧
     (Configuration.migrate cfgLegacyProxy).1.serve.proxy_insecure
       = cfgLegacyProxy.serve.proxy_insecure ∧
     (Configuration.migrate cfgLegacyProxy).1.serve.proxy_no_system_proxy
       = cfgLegacyProxy.serve.proxy_no_system_proxy ∧
     (Configuration.migrate cfgLegacyProxy).2.1.count Warning.legacyProxy = 1) :=
  ⟨rfl, rfl,
   c6_amended_legacy_proxy cfgLegacyProxy (Value.str "http://x") rfl rfl⟩

/-! ### Claim C7 -/

/-- Claim C7: for every configuration with one pre-existing proxies entry and
a legacy `serve.proxy_backend`, after migration the proxies list has exactly
two entries, in original-then-appended order — the migration never merges or
deduplicates, even when the entries coincide, it always appends. -/
theorem c7_append_only (c : Configuration) (p : Proxy) (b : Value)
    (hp : c.proxies.items = [p]) (hb : c.serve.proxy_backend = some b) :
    (Configuration.migrate c).1.proxies.items =
      [p,
       { backend := b
         rewrite := c.serve.proxy_rewrite
         ws := c.serve.proxy_ws.getD false
         insecure := c.serve.proxy_insecure.getD false
         no_system_proxy := c.serve.proxy_no_system_proxy.getD false }] := by
  cases hd : c.clean.dist <;>
    simp [migrate_eq, cleanDistStep, legacyProxyStep, hd, hb, hp]

/-- Claim C7, witness: one pre-existing entry that even equals the entry the
migration builds, and it is still appended, not deduplicated. -/
theorem c7_witness :
    (({ serve := { proxy_backend := some (.str "http://x") },
        proxies := { items := [{ backend := Value.str "http://x" }] } } :
          Configuration).proxies.items = [{ backend := Value.str "http://x" }]) ∧
    (({ serve := { proxy_backend := some (.str "http://x") },
        proxies := { items := [{ backend := Value.str "http://x" }] } } :
          Configuration).serve.proxy_backend = some (Value.str "http://x")) ∧
    ((Configuration.migrate
        { serve := { proxy_backend := some (.str "http://x") },
          proxies := { items := [{ backend := Value.str "http://x" }] } }).1.proxies.items =
      [{ backend := Value.str "http://x" },
       { backend := Value.str "http://x"
         rewrite := none
         ws := false
         insecure := false
         no_system_proxy := false }]) :=
  ⟨rfl, rfl,
   c7_append_only
     { serve := { proxy_backend := some (.str "http://x") },
       proxies := { items := [{ backend := Value.str "http://x" }] } }
     { backend := Value.str "http://x" } (Value.str "http://x") rfl rfl⟩

/-! ### Claim C8 -/

/-- Claim C8: for every configuration where both `clean.dist` and `core.dist`
are set, migration takes and overwrites `core.dist` unconditionally with the
`clean.dist` value — the legacy value silently wins over the user-set
`core.dist`. -/
theorem c8_legacy_wins (c : Configuration) (d d₀ : Value)
    (h1 : c.clean.dist = some d) (h2 : c.core.dist = some d₀) :
    (Configuration.migrate c).1.core.dist = some d ∧
    (Configuration.migrate c).1.clean.dist = none := by
  cases hb : c.serve.proxy_backend <;>
    simp [migrate_eq, cleanDistStep, legacyProxyStep, h1, hb]

/-- Claim C8, witness: distinct legacy and user values, the legacy one wins. -/
theorem c8_witness :
    (({ clean := { dist := some (Value.str "legacy") },
        core := { dist := some (Value.str "user") } } : Configuration).clean.dist
      = some (Value.str "legacy")) ∧
    (({ clean := { dist := some (Value.str "legacy") },
        core := { dist := some (Value.str "user") } } : Configuration).core.dist
      = some (Value.str "user")) ∧
    ((Configuration.migrate
        { clean := { dist := some (Value.str "legacy") },
          core := { dist := some (Value.str "user") } }).1.core.dist
       = some (Value.str "legacy") ∧
     (Configuration.migrate
        { clean := { dist := some (Value.str "legacy") },
          core := { dist := some (Value.str "user") } }).1.clean.dist = none) :=
  ⟨rfl, rfl,
   c8_legacy_wins
     { clean := { dist := some (Value.str "legacy") },
       core := { dist := some (Value.str "user") } }
     (Value.str "legacy") (Value.str "user") rfl rfl⟩

/-! ### Claim C9 -/

lemma step_proxy_alias (s : InnerCfg) (v : Value) :
    InnerCfg.step s ("proxy", v) = InnerCfg.step s ("proxies", v) := rfl

lemma run_proxy_alias (pre : List (String × Value)) :
    ∀ (s : InnerCfg) (v : Value) (post : List (String × Value)),
    InnerCfg.run s (pre ++ ("proxies", v) :: post) =
      InnerCfg.run s (pre ++ ("proxy", v) :: post) := by
  induction pre with
  | nil =>
    intro s v post
    simp only [List.nil_append, InnerCfg.run]
    rw [step_proxy_alias]
  | cons hd tl ih =>
    intro s v post
    simp only [List.cons_append, InnerCfg.run]
    cases h : InnerCfg.step s hd with
    | error e => rfl
    | ok s' => exact ih s' v post

/-- Claim C9: replacing the field name `proxies` with the deprecated singular
alias `proxy` (all else equal) yields an identical decoded configuration: the
two documents decode to equal results. -/
theorem c9_proxy_alias (pre post : List (String × Value)) (v : Value) :
    Configuration.deserialize (pre ++ ("proxies", v) :: post) =
      Configuration.deserialize (pre ++ ("proxy", v) :: post) := by
  simp only [Configuration.deserialize, InnerCfg.deserializeDoc]
  rw [run_proxy_alias]

/-! ### Claim C10 -/

/-- Claim C10: when `serve.proxy_backend` is absent, the cross-section
legacy-proxy step of `Configuration::migrate` leaves `proxy_rewrite`,
`proxy_ws`, `proxy_insecure` and `proxy_no_system_proxy` unchanged, appends
nothing to the proxies list, and emits no warning: the companion fields are
only consumed when `proxy_backend` is present. -/
theorem c10_legacy_proxy_frame (c : Configuration)
    (hb : c.serve.proxy_backend = none) :
    (legacyProxyStep c).1.serve.proxy_rewrite = c.serve.proxy_rewrite ∧
    (legacyProxyStep c).1.serve.proxy_ws = c.serve.proxy_ws ∧
    (legacyProxyStep c).1.serve.proxy_insecure = c.serve.proxy_insecure ∧
    (legacyProxyStep c).1.serve.proxy_no_system_proxy = c.serve.proxy_no_system_proxy ∧
    (legacyProxyStep c).1.proxies = c.proxies ∧
    (legacyProxyStep c).2 = [] := by
  simp [legacyProxyStep, hb]

/-- Claim C10, witness at a configuration carrying companion fields but no
backend. -/
theorem c10_witness :
    (({ serve := { proxy_ws := some true, proxy_rewrite := some (Value.str "/api") } } :
        Configuration).serve.proxy_backend = none) ∧
    ((legacyProxyStep
        { serve := { proxy_ws := some true,
                     proxy_rewrite := some (Value.str "/api") } }).1.serve.proxy_rewrite
       = ({ serve := { proxy_ws := some true, proxy_rewrite := some (Value.str "/api") } } :
           Configuration).serve.proxy_rewrite ∧
     (legacyProxyStep
        { serve := { proxy_ws := some true,
                     proxy_rewrite := some (Value.str "/api") } }).1.serve.proxy_ws
       = ({ serve := { proxy_ws := some true, proxy_rewrite := some (Value.str "/api") } } :
           Configuration).serve.proxy_ws ∧
     (legacyProxyStep
        { serve := { proxy_ws := some true,
                     proxy_rewrite := some (Value.str "/api") } }).1.serve.proxy_insecure
       = ({ serve := { proxy_ws := some true, proxy_rewrite := some (Value.str "/api") } } :
           Configuration).serve.proxy_insecure ∧
     (legacyProxyStep
        { serve := { proxy_ws := some true,
                     proxy_rewrite := some (Value.str "/api") } }).1.serve.proxy_no_system_proxy
       = ({ serve := { proxy_ws := some true, proxy_rewrite := some (Value.str "/api") } } :
           Configuration).serve.proxy_no_system_proxy ∧
     (legacyProxyStep
        { serve := { proxy_ws := some true,
                     proxy_rewrite := some (Value.str "/api") } }).1.proxies
       = ({ serve := { proxy_ws := some true, proxy_rewrite := some (Value.str "/api") } } :
           Configuration).proxies ∧
     (legacyProxyStep
        { serve := { proxy_ws := some true,
                     proxy_rewrite := some (Value.str "/api") } }).2 = []) :=
  ⟨rfl,
   c10_legacy_proxy_frame
     { serve := { proxy_ws := some true, proxy_rewrite := some (Value.str "/api") } } rfl⟩

end TrunkConfig
